import Mathlib

/-!
Verification of the upload-orchestrator logic of the album-upload single-page
application (source: src/src/App.jsx). The React component state is embedded as
an explicit record, the event handlers and the progress-aggregation effect as
pure state transformers, and the asynchronous upload loop as an explicit
callback/trace model. JS numbers are modelled as rationals, JS objects used as
string-keyed maps as insertion-ordered association lists.
-/

namespace AlbumUpload

/-- One user-chosen file: name, MIME type, and content bytes
(the result of FileReader.readAsBinaryString, one byte per char). -/
structure SelectedFile where
  name : String
  type : String
  content : List Nat
deriving DecidableEq, Repr

/-- The React component state of App (src/src/App.jsx lines 75-87):
files, category, isUploading, uploadProgress, totalProgress, currentFileIndex,
error, accessToken, plus the token held by the gapi client
(set via window.gapi.client.setToken). -/
structure AppState where
  files : List SelectedFile
  category : String
  isUploading : Bool
  uploadProgress : List (String × Nat)
  totalProgress : ℚ
  currentFileIndex : Nat
  error : Option String
  accessToken : Option String
  gapiToken : Option String
deriving DecidableEq, Repr

/-- JS object spread update x7b ...prev, [k]: v x7d : if the key is present its
value is overwritten in place, otherwise the pair is appended (JS objects keep
string-key insertion order). -/
def objSet (m : List (String × Nat)) (k : String) (v : Nat) : List (String × Nat) :=
  if k ∈ m.map Prod.fst then m.map (fun p => if p.1 = k then (k, v) else p)
  else m ++ [(k, v)]

/-- Object.values(uploadProgress).filter(p => p === 100).length
(src/src/App.jsx line 243). -/
def completedCount (m : List (String × Nat)) : Nat :=
  ((m.map Prod.snd).filter (fun v => decide (v = 100))).length

/-- The progress-aggregation effect (src/src/App.jsx lines 238-252): when no
files are selected total progress is 0; otherwise it is
(completedFiles / files.length) * 100, and when every file is completed the
isUploading flag is cleared and the gapi client token is set to null. -/
def applyEffect (s : AppState) : AppState :=
  if s.files.length = 0 then { s with totalProgress := 0 }
  else
    let c := completedCount s.uploadProgress
    let s1 := { s with totalProgress := ((c : ℚ) / (s.files.length : ℚ)) * 100 }
    if c = s.files.length then { s1 with isUploading := false, gapiToken := none } else s1

/-- handleFileSelect (src/src/App.jsx lines 155-163): replaces the file list,
clears the progress map, zeroes total progress, resets the current index and
clears the error. It does not touch isUploading, accessToken or category. -/
def handleFileSelect (s : AppState) (newFiles : List SelectedFile) : AppState :=
  { s with files := newFiles, uploadProgress := [], totalProgress := 0,
           currentFileIndex := 0, error := none }

/-- The selectFiles operation as observed after React re-renders: the
handleFileSelect state update followed by the progress-aggregation effect
(its dependencies, uploadProgress and files, changed). -/
def selectFilesOp (s : AppState) (newFiles : List SelectedFile) : AppState :=
  applyEffect (handleFileSelect s newFiles)

/-- handleCategoryChange (src/src/App.jsx line 166): unconditionally stores the
selected category. -/
def handleCategoryChange (s : AppState) (c : String) : AppState :=
  { s with category := c }

/-- The category-change event as dispatchable from the UI: the select element
carries disabled=x7bisUploadingx7d (src/src/App.jsx line 289), and a disabled
select fires no change events, so while uploading no handleCategoryChange call
is delivered. -/
def dispatchCategoryChange (s : AppState) (c : String) : AppState :=
  if s.isUploading then s else handleCategoryChange s c

/-- isSignedIn (src/src/App.jsx line 257): accessToken !== null. -/
def isSignedIn (s : AppState) : Bool :=
  s.accessToken.isSome

/-- allFilesUploaded (src/src/App.jsx line 256):
files.length > 0 AND totalProgress >= 100. -/
def allFilesUploaded (s : AppState) : Bool :=
  decide (0 < s.files.length) && decide ((100 : ℚ) ≤ s.totalProgress)

/-- The abstract run states of the orchestrator named by the specification. -/
inductive RunState
  | idle
  | uploading
  | allDone
deriving DecidableEq, Repr

/-- The specification run state read off the component state: uploading while
the isUploading flag is set, allDone when every selected file is uploaded,
idle otherwise. -/
def runState (s : AppState) : RunState :=
  if s.isUploading then RunState.uploading
  else if allFilesUploaded s then RunState.allDone
  else RunState.idle

/-- The spec formula for total progress: 100 * completedCount / totalCount,
and 0 when no files are selected. -/
def specTotalProgress (files : List SelectedFile) (m : List (String × Nat)) : ℚ :=
  if files.length = 0 then 0 else 100 * (completedCount m : ℚ) / (files.length : ℚ)

/-- Sample selected file a.jpg, used for concrete witnesses. -/
def fileA : SelectedFile :=
  { name := "a.jpg", type := "image/jpeg", content := [1, 2, 3] }

/-- Sample selected file b.jpg, used for concrete witnesses. -/
def fileB : SelectedFile :=
  { name := "b.jpg", type := "image/jpeg", content := [4, 5] }

/-- A second selected file that shares the name a.jpg with fileA but has
different content, used to exercise duplicate-name batches. -/
def fileA2 : SelectedFile :=
  { name := "a.jpg", type := "image/jpeg", content := [9] }

/-- A component state mid-run: two files selected, the first already at 100,
the isUploading flag set, a credential present. -/
def midUploadState : AppState :=
  { files := [fileA, fileB], category := "Nikkah", isUploading := true,
    uploadProgress := [("a.jpg", 100)], totalProgress := 50, currentFileIndex := 1,
    error := none, accessToken := some "tok", gapiToken := some "tok" }

/-- Error message for an empty selection (src/src/App.jsx line 180). -/
def emptySelectionMsg : String := "Please select files to upload first."

/-- Error message for a missing credential (src/src/App.jsx line 184). -/
def notAuthenticatedMsg : String := "You must be signed in to upload files."

/-- Error message for an unconfigured folder (src/src/App.jsx line 194). -/
def unconfiguredMsg (cat : String) : String :=
  "Folder ID for category \"" ++ cat ++ "\" is not configured."

/-- Error message for a failed upload (src/src/App.jsx line 227), with the
already-resolved reason text. -/
def uploadErrorMsg (fileName reason : String) : String :=
  "Error uploading " ++ fileName ++ ": " ++ reason

/-- The fixed multipart boundary token (src/src/App.jsx line 206). -/
def boundary : String := "-------314159265358979323846"

/-- The part delimiter (src/src/App.jsx line 207). -/
def delimiter : String := "\r\n--" ++ boundary ++ "\r\n"

/-- The closing delimiter (src/src/App.jsx line 208). -/
def close_delim : String := "\r\n--" ++ boundary ++ "--"

/-- JSON string escaping for one character, as JSON.stringify performs it on
the characters that can occur here. -/
def jsonEscapeChar (c : Char) : String :=
  if c = '"' then "\\\""
  else if c = '\\' then "\\\\"
  else if c = '\n' then "\\n"
  else if c = '\r' then "\\r"
  else if c = '\t' then "\\t"
  else String.singleton c

/-- A JSON string literal, as JSON.stringify renders a string value. -/
def jsonString (s : String) : String :=
  "\"" ++ String.join (s.toList.map jsonEscapeChar) ++ "\""

/-- JSON.stringify(x7b name: fileName, parents: [folderId] x7d)
(src/src/App.jsx line 202 and 212). -/
def metadataJson (fileName folderId : String) : String :=
  "\x7b\"name\":" ++ jsonString fileName ++ ",\"parents\":[" ++ jsonString folderId ++ "]\x7d"

/-- The base64 alphabet used by btoa. -/
def b64Chars : List Char :=
  "ABCDEFGHIJKLMNOPQRSTUVWXYZabcdefghijklmnopqrstuvwxyz0123456789+/".toList

/-- The base64 digit for a 6-bit value. -/
def b64Char (n : Nat) : Char := b64Chars.getD n 'A'

/-- btoa over the byte string produced by readAsBinaryString
(src/src/App.jsx line 210): standard base64 with '=' padding. -/
def base64Encode : List Nat → String
  | [] => ""
  | [a] => String.mk [b64Char (a / 4 % 64), b64Char (a % 4 * 16), '=', '=']
  | [a, b] =>
      String.mk [b64Char (a / 4 % 64), b64Char (a % 4 * 16 + b / 16),
        b64Char (b % 16 * 4), '=']
  | a :: b :: c :: rest =>
      String.mk [b64Char (a / 4 % 64), b64Char (a % 4 * 16 + b / 16),
        b64Char (b % 16 * 4 + c / 64), b64Char (c % 64)] ++ base64Encode rest

/-- file.type with the JS falsy default (src/src/App.jsx line 209):
an empty type string falls back to application/octet-stream. -/
def contentTypeOf (f : SelectedFile) : String :=
  if f.type = "" then "application/octet-stream" else f.type

/-- The multipart request body exactly as concatenated at
src/src/App.jsx lines 211-214. -/
def multipartRequestBody (metadata contentType base64Data : String) : String :=
  delimiter ++ "Content-Type: application/json\r\n\r\n" ++ metadata ++
  delimiter ++ "Content-Type: " ++ contentType ++ "\r\n" ++
  "Content-Transfer-Encoding: base64\r\n\r\n" ++ base64Data ++ close_delim

/-- One Drive REST request as assembled by the upload loop
(src/src/App.jsx lines 217-223). -/
structure DriveRequest where
  path : String
  method : String
  uploadType : String
  contentTypeHeader : String
  body : String
deriving DecidableEq, Repr

/-- The request the loop submits for one file into the configured folder
(src/src/App.jsx lines 202, 206-223). -/
def uploadRequest (folderId : String) (f : SelectedFile) : DriveRequest :=
  { path := "https://www.googleapis.com/upload/drive/v3/files"
    method := "POST"
    uploadType := "multipart"
    contentTypeHeader := "multipart/related; boundary=\"" ++ boundary ++ "\""
    body := multipartRequestBody (metadataJson f.name folderId) (contentTypeOf f)
      (base64Encode f.content) }

/-- Two parts joined by a fixed boundary token, as the spec describes the
outbound multipart body. -/
def specPartJoin (b p1 p2 : String) : String :=
  "\r\n--" ++ b ++ "\r\n" ++ p1 ++ ("\r\n--" ++ b ++ "\r\n") ++ p2 ++
  ("\r\n--" ++ b ++ "--")

/-- The JSON metadata part of the spec body shape. -/
def specMetadataPart (fileName folderId : String) : String :=
  "Content-Type: application/json\r\n\r\n" ++ metadataJson fileName folderId

/-- The base64-encoded content part of the spec body shape. -/
def specContentPart (contentType : String) (content : List Nat) : String :=
  "Content-Type: " ++ contentType ++ "\r\n" ++
  "Content-Transfer-Encoding: base64\r\n\r\n" ++ base64Encode content

/-- Result of the synchronous phase of handleUpload
(src/src/App.jsx lines 178-233): the state after the handler returns, the
files whose FileReader callbacks were registered by the loop (in selection
order), and the Drive requests those callbacks will submit. -/
structure SyncResult where
  state : AppState
  scheduled : List SelectedFile
  requests : List DriveRequest
deriving DecidableEq, Repr

/-- The synchronous phase of handleUpload (src/src/App.jsx lines 178-233):
precondition checks in source order, then the loop, which for every file sets
currentFileIndex and registers a FileReader onload callback, without awaiting
anything. The folder configuration is the environment-supplied category map. -/
def handleUploadSync (cfg : String → Option String) (s : AppState) : SyncResult :=
  if s.files.length = 0 then
    { state := { s with error := some emptySelectionMsg }, scheduled := [], requests := [] }
  else
    match s.accessToken with
    | none =>
        { state := { s with error := some notAuthenticatedMsg }, scheduled := [], requests := [] }
    | some tok =>
        let s1 : AppState := { s with isUploading := true, error := none, gapiToken := some tok }
        match cfg s.category with
        | none =>
            { state := { s1 with error := some (unconfiguredMsg s.category), isUploading := false },
              scheduled := [], requests := [] }
        | some folderId =>
            { state := { s1 with currentFileIndex := s.files.length - 1 },
              scheduled := s.files, requests := s.files.map (uploadRequest folderId) }

/-- The precondition errors named by the specification. -/
inductive PrecondError
  | emptySelection
  | notAuthenticated
  | unconfiguredDestination
deriving DecidableEq, Repr

/-- The first violated startUpload precondition, in the order the spec lists
them: batch non-empty, credential present, destination resolvable. -/
def firstViolation (cfg : String → Option String) (s : AppState) : Option PrecondError :=
  if s.files.isEmpty then some PrecondError.emptySelection
  else if s.accessToken.isNone then some PrecondError.notAuthenticated
  else if (cfg s.category).isNone then some PrecondError.unconfiguredDestination
  else none

/-- The source error message corresponding to each precondition error. -/
def precondErrorMsg (cat : String) : PrecondError → String
  | PrecondError.emptySelection => emptySelectionMsg
  | PrecondError.notAuthenticated => notAuthenticatedMsg
  | PrecondError.unconfiguredDestination => unconfiguredMsg cat

/-- One registered FileReader onload callback running to completion with a
given Drive result (src/src/App.jsx lines 205-232): on success the file's
progress entry is set to 100 and the aggregation effect runs; on failure the
error is recorded, isUploading is cleared and the gapi token is set to null
(only that callback returns; nothing else is cancelled). -/
def runFileCallback (results : SelectedFile → Option String) (st : AppState)
    (f : SelectedFile) : AppState :=
  match results f with
  | none => applyEffect { st with uploadProgress := objSet st.uploadProgress f.name 100 }
  | some reason =>
      { st with
        error := some (uploadErrorMsg f.name reason)
        isUploading := false
        gapiToken := none }

/-- Running the registered callbacks of the given files, each to completion,
in the given order, with the given per-file Drive results. -/
def runUploadCallbacks (results : SelectedFile → Option String)
    (fs : List SelectedFile) (st : AppState) : AppState :=
  fs.foldl (runFileCallback results) st

/-- A whole startUpload run: the synchronous phase of handleUpload followed by
every registered callback running to completion in selection order. -/
def runStartUpload (cfg : String → Option String)
    (results : SelectedFile → Option String) (s : AppState) : AppState :=
  runUploadCallbacks results (handleUploadSync cfg s).scheduled (handleUploadSync cfg s).state

/-- A concrete category-to-folder configuration with only Nikkah configured,
used for concrete witnesses. -/
def sampleCfg : String → Option String :=
  fun c => if c = "Nikkah" then some "nikkah-folder-id" else none

/-- A signed-in idle state with a fresh selection, used for concrete
witnesses. -/
def signedInState (fs : List SelectedFile) : AppState :=
  { files := fs, category := "Nikkah", isUploading := false, uploadProgress := [],
    totalProgress := 0, currentFileIndex := 0, error := none,
    accessToken := some "tok", gapiToken := none }

/-- Per-file Drive results in which every upload succeeds. -/
def okResults : SelectedFile → Option String := fun _ => none

/-- Per-file Drive results in which a.jpg fails with a quota error and every
other file succeeds. -/
def failResults : SelectedFile → Option String :=
  fun f => if f.name = "a.jpg" then some "quota exceeded" else none

/-- Observable events of one startUpload run over the batch indices:
a file's FileReader load firing, its Drive request being submitted, and that
request resolving. -/
inductive UploadEvent
  | readerLoad : Nat → UploadEvent
  | submit : Nat → UploadEvent
  | resolve : Nat → UploadEvent
deriving DecidableEq, Repr

/-- Position of the first occurrence of an event in a trace. -/
def eventIndex (tr : List UploadEvent) (e : UploadEvent) : Option Nat :=
  tr.findIdx? (fun x => decide (x = e))

/-- Whether event a occurs (first) strictly before event b in the trace. -/
def occursBefore (tr : List UploadEvent) (a b : UploadEvent) : Bool :=
  match eventIndex tr a, eventIndex tr b with
  | some i, some j => decide (i < j)
  | _, _ => false

/-- The admissible complete traces of the upload loop as written
(src/src/App.jsx lines 199-233): the loop synchronously registers one
FileReader onload per file and returns without awaiting anything, so each
file's own lifecycle is ordered (load, then submit, then resolve) but the code
imposes no ordering between distinct files' events; any interleaving of the
per-file sequences is admissible. -/
def codeTraceValid (n : Nat) (tr : List UploadEvent) : Bool :=
  decide (tr.length = 3 * n) &&
  (List.range n).all (fun i =>
    decide (tr.countP (fun x => decide (x = UploadEvent.readerLoad i)) = 1) &&
    decide (tr.countP (fun x => decide (x = UploadEvent.submit i)) = 1) &&
    decide (tr.countP (fun x => decide (x = UploadEvent.resolve i)) = 1) &&
    occursBefore tr (UploadEvent.readerLoad i) (UploadEvent.submit i) &&
    occursBefore tr (UploadEvent.submit i) (UploadEvent.resolve i))

/-- The sequential discipline the claim states: file i+1 is never submitted
before file i's request has resolved. -/
def sequentialSubmission (n : Nat) (tr : List UploadEvent) : Bool :=
  (List.range n).all (fun i =>
    decide (i + 1 = n) ||
    occursBefore tr (UploadEvent.resolve i) (UploadEvent.submit (i + 1)))

/-- A concrete admissible trace of a two-file run in which the second file's
request is submitted before the first file's request resolves. -/
def c1Trace : List UploadEvent :=
  [UploadEvent.readerLoad 0, UploadEvent.submit 0, UploadEvent.readerLoad 1,
   UploadEvent.submit 1, UploadEvent.resolve 0, UploadEvent.resolve 1]

theorem completedCount_nil : completedCount [] = 0 := rfl

/-- Claim C5: totalProgress is the pure derived value
100 * completedCount / totalCount computed by the aggregation effect, and with
zero files selected it is exactly 0, the divisionless branch. -/
theorem c5_totalProgress_formula (s : AppState) :
    (applyEffect s).totalProgress = specTotalProgress s.files s.uploadProgress ∧
    specTotalProgress [] s.uploadProgress = 0 := by
  constructor
  · unfold applyEffect specTotalProgress
    by_cases h : s.files.length = 0
    · simp [h]
    · simp only [h, if_false]
      split <;> · simp only []; ring
  · simp [specTotalProgress]

/-- Claim C6 counterexample: from a mid-upload prior state (isUploading set),
selecting a new batch leaves the run state at uploading, not idle: the
handleFileSelect handler never clears the isUploading flag. -/
theorem c6_counterexample :
    runState (selectFilesOp midUploadState [fileB]) = RunState.uploading ∧
    RunState.uploading ≠ RunState.idle := by
  constructor
  · simp [selectFilesOp, handleFileSelect, midUploadState, applyEffect,
      completedCount, runState]
  · simp

/-- Claim C6 (amended): selectFiles replaces the batch in order, clears
UploadProgress, clears the last error, zeroes total progress, and leaves the
credential and the isUploading flag unchanged; whenever the prior run state is
not uploading, the run state after the call is idle. -/
theorem c6_selectFiles_resets (s : AppState) (newFiles : List SelectedFile)
    (h : s.isUploading = false) :
    (selectFilesOp s newFiles).files = newFiles ∧
    (selectFilesOp s newFiles).uploadProgress = [] ∧
    (selectFilesOp s newFiles).error = none ∧
    (selectFilesOp s newFiles).totalProgress = 0 ∧
    (selectFilesOp s newFiles).accessToken = s.accessToken ∧
    (selectFilesOp s newFiles).category = s.category ∧
    (selectFilesOp s newFiles).isUploading = s.isUploading ∧
    runState (selectFilesOp s newFiles) = RunState.idle := by
  have hsel : selectFilesOp s newFiles =
      applyEffect (handleFileSelect s newFiles) := rfl
  by_cases hn : newFiles.length = 0
  · simp [selectFilesOp, handleFileSelect, applyEffect, hn, runState, h,
      allFilesUploaded]
  · have hc : completedCount ([] : List (String × Nat)) = 0 := rfl
    have hn2 : ¬ (0 = newFiles.length) := fun hh => hn hh.symm
    simp [selectFilesOp, handleFileSelect, applyEffect, hn, hn2, hc, runState, h,
      allFilesUploaded]

/-- Claim C6 witness: the amended selectFiles frame property at a concrete
idle prior state. -/
theorem c6_witness :
    (selectFilesOp { midUploadState with isUploading := false } [fileB]).files = [fileB] ∧
    (selectFilesOp { midUploadState with isUploading := false } [fileB]).uploadProgress = [] ∧
    (selectFilesOp { midUploadState with isUploading := false } [fileB]).error = none ∧
    (selectFilesOp { midUploadState with isUploading := false } [fileB]).totalProgress = 0 ∧
    (selectFilesOp { midUploadState with isUploading := false } [fileB]).accessToken =
      ({ midUploadState with isUploading := false } : AppState).accessToken ∧
    (selectFilesOp { midUploadState with isUploading := false } [fileB]).category =
      ({ midUploadState with isUploading := false } : AppState).category ∧
    (selectFilesOp { midUploadState with isUploading := false } [fileB]).isUploading =
      ({ midUploadState with isUploading := false } : AppState).isUploading ∧
    runState (selectFilesOp { midUploadState with isUploading := false } [fileB]) =
      RunState.idle :=
  c6_selectFiles_resets { midUploadState with isUploading := false } [fileB] rfl

/-- Claim C7: while the run state is uploading, a category-change is not
delivered (the select is disabled), so the active category — indeed the whole
state — is unchanged by a setCategory attempt. -/
theorem c7_setCategory_blocked_while_uploading (s : AppState) (c : String)
    (h : s.isUploading = true) :
    dispatchCategoryChange s c = s ∧ (dispatchCategoryChange s c).category = s.category := by
  have h1 : dispatchCategoryChange s c = s := by
    simp [dispatchCategoryChange, h]
  exact ⟨h1, by rw [h1]⟩

/-- Claim C7 witness: at the concrete mid-upload state, a setCategory attempt
leaves the state unchanged. -/
theorem c7_witness :
    dispatchCategoryChange midUploadState "Baraat" = midUploadState ∧
    (dispatchCategoryChange midUploadState "Baraat").category = midUploadState.category :=
  c7_setCategory_blocked_while_uploading midUploadState "Baraat" rfl

/-- Claim C8: setCategory with the already-active category is a no-op on the
whole orchestrator state, both for the raw handler and for the UI-dispatched
event. -/
theorem c8_setCategory_idempotent (s : AppState) (c : String)
    (h : s.category = c) :
    handleCategoryChange s c = s ∧ dispatchCategoryChange s c = s := by
  have h1 : handleCategoryChange s c = s := by
    cases s
    simp only [handleCategoryChange]
    simp_all
  refine ⟨h1, ?_⟩
  unfold dispatchCategoryChange
  split
  · rfl
  · exact h1

/-- Claim C8 witness: re-selecting the already-active category at a concrete
state changes nothing. -/
theorem c8_witness :
    handleCategoryChange midUploadState "Nikkah" = midUploadState ∧
    dispatchCategoryChange midUploadState "Nikkah" = midUploadState :=
  c8_setCategory_idempotent midUploadState "Nikkah" rfl

/-- Claim C1 (code evaluated at the failing input): with the two-file batch,
a valid credential and a configured destination, the synchronous phase of
handleUpload registers both files' callbacks without awaiting anything, and
the interleaving in which file 1's request is submitted before file 0's
request resolves is admissible for the code as written while violating the
claimed sequential discipline. -/
theorem c1_unsequenced_submission :
    (handleUploadSync sampleCfg (signedInState [fileA, fileB])).scheduled = [fileA, fileB] ∧
    codeTraceValid 2 c1Trace = true ∧
    sequentialSubmission 2 c1Trace = false := by
  refine ⟨?_, ?_, ?_⟩ <;> decide

/-- Claim C2 (code evaluated at the failing input): batch [a.jpg, b.jpg] where
a.jpg fails with reason quota exceeded and b.jpg succeeds: the run records the
failure message naming the file and reason and clears isUploading, yet
b.jpg — after the failing file in selection order — is still uploaded and
gets its 100 progress entry, because its callback was already registered. -/
theorem c2_no_fail_fast :
    (runStartUpload sampleCfg failResults (signedInState [fileA, fileB])).uploadProgress
      = [("b.jpg", 100)] ∧
    (runStartUpload sampleCfg failResults (signedInState [fileA, fileB])).error
      = some "Error uploading a.jpg: quota exceeded" ∧
    (runStartUpload sampleCfg failResults (signedInState [fileA, fileB])).isUploading
      = false := by
  refine ⟨?_, ?_, ?_⟩ <;> decide

/-- Claim C4: handleUpload fails with no Drive request exactly when a
precondition is violated, with the source message matching the first violated
precondition in the order the spec lists them; when all preconditions hold it
proceeds, building one upload request per file. -/
theorem c4_preconditions (cfg : String → Option String) (s : AppState) :
    (handleUploadSync cfg s).state.error
      = Option.map (precondErrorMsg s.category) (firstViolation cfg s) ∧
    (handleUploadSync cfg s).requests
      = (if firstViolation cfg s = none
         then s.files.map (uploadRequest ((cfg s.category).getD ""))
         else []) ∧
    (firstViolation cfg s = none → (handleUploadSync cfg s).requests ≠ []) := by
  cases hf : s.files with
  | nil => simp [handleUploadSync, firstViolation, hf, precondErrorMsg]
  | cons f fs =>
    cases ht : s.accessToken with
    | none => simp [handleUploadSync, firstViolation, hf, ht, precondErrorMsg]
    | some tok =>
      cases hc : cfg s.category with
      | none => simp [handleUploadSync, firstViolation, hf, ht, hc, precondErrorMsg]
      | some fid => simp [handleUploadSync, firstViolation, hf, ht, hc, precondErrorMsg]

/-- Claim C4 witness: the precondition characterisation instantiated at a
concrete signed-in one-file state with a configured destination. -/
theorem c4_witness :
    (handleUploadSync sampleCfg (signedInState [fileA])).state.error
      = Option.map (precondErrorMsg (signedInState [fileA]).category)
          (firstViolation sampleCfg (signedInState [fileA])) ∧
    (handleUploadSync sampleCfg (signedInState [fileA])).requests
      = (if firstViolation sampleCfg (signedInState [fileA]) = none
         then (signedInState [fileA]).files.map
             (uploadRequest ((sampleCfg (signedInState [fileA]).category).getD ""))
         else []) ∧
    (firstViolation sampleCfg (signedInState [fileA]) = none →
      (handleUploadSync sampleCfg (signedInState [fileA])).requests ≠ []) :=
  c4_preconditions sampleCfg (signedInState [fileA])

theorem append_rn_json (x : String) :
    ("\r\n" : String) ++ ("Content-Type: application/json\r\n\r\n" ++ x)
      = "\r\nContent-Type: application/json\r\n\r\n" ++ x := by
  rw [← String.append_assoc]
  rfl

theorem append_rn_ct (x : String) :
    ("\r\n" : String) ++ ("Content-Type: " ++ x) = "\r\nContent-Type: " ++ x := by
  rw [← String.append_assoc]
  rfl

/-- Claim C9: for every file uploaded, the request is a single POST with
uploadType multipart whose body is exactly two parts — the JSON metadata part
carrying name and parents [destinationId], and a base64-encoded content
part — joined by the fixed boundary token, which the Content-Type header also
names. -/
theorem c9_multipart_shape (folderId : String) (f : SelectedFile) :
    (uploadRequest folderId f).body
      = specPartJoin boundary (specMetadataPart f.name folderId)
          (specContentPart (contentTypeOf f) f.content) ∧
    (uploadRequest folderId f).method = "POST" ∧
    (uploadRequest folderId f).uploadType = "multipart" ∧
    (uploadRequest folderId f).path = "https://www.googleapis.com/upload/drive/v3/files" ∧
    (uploadRequest folderId f).contentTypeHeader
      = "multipart/related; boundary=\"" ++ boundary ++ "\"" := by
  refine ⟨?_, rfl, rfl, rfl, rfl⟩
  simp [uploadRequest, multipartRequestBody, specPartJoin, specMetadataPart,
    specContentPart, delimiter, close_delim, String.append_assoc,
    append_rn_json, append_rn_ct]

theorem applyEffect_frame (s : AppState) :
    (applyEffect s).uploadProgress = s.uploadProgress ∧
    (applyEffect s).files = s.files ∧
    (applyEffect s).accessToken = s.accessToken ∧
    (applyEffect s).error = s.error := by
  unfold applyEffect
  split
  · exact ⟨rfl, rfl, rfl, rfl⟩
  · dsimp only []
    split
    · exact ⟨rfl, rfl, rfl, rfl⟩
    · exact ⟨rfl, rfl, rfl, rfl⟩

theorem applyEffect_totalProgress (s : AppState) (h0 : s.files.length ≠ 0) :
    (applyEffect s).totalProgress
      = ((completedCount s.uploadProgress : ℚ) / (s.files.length : ℚ)) * 100 := by
  unfold applyEffect
  simp only [h0, if_false]
  split
  · rfl
  · rfl

theorem applyEffect_complete (s : AppState) (h0 : s.files.length ≠ 0)
    (hc : completedCount s.uploadProgress = s.files.length) :
    (applyEffect s).totalProgress = 100 ∧
    (applyEffect s).isUploading = false ∧
    (applyEffect s).gapiToken = none := by
  have hn : ((s.files.length : ℚ)) ≠ 0 := by exact_mod_cast h0
  unfold applyEffect
  simp only [h0, if_false, hc, if_pos rfl]
  refine ⟨?_, rfl, rfl⟩
  rw [div_self hn]
  norm_num

theorem runUploadCallbacks_ok (results : SelectedFile → Option String) :
    ∀ (fs : List SelectedFile) (st : AppState), (∀ f ∈ fs, results f = none) →
      (runUploadCallbacks results fs st).uploadProgress
        = fs.foldl (fun m f => objSet m f.name 100) st.uploadProgress ∧
      (runUploadCallbacks results fs st).files = st.files ∧
      (runUploadCallbacks results fs st).accessToken = st.accessToken ∧
      (runUploadCallbacks results fs st).error = st.error := by
  intro fs
  induction fs with
  | nil => intro st _; exact ⟨rfl, rfl, rfl, rfl⟩
  | cons f fs ih =>
    intro st hok
    have hf : results f = none := hok f (List.mem_cons_self f fs)
    have hstep : runUploadCallbacks results (f :: fs) st
        = runUploadCallbacks results fs
            (applyEffect { st with uploadProgress := objSet st.uploadProgress f.name 100 }) := by
      simp [runUploadCallbacks, runFileCallback, hf]
    rw [hstep]
    have hfr := applyEffect_frame { st with uploadProgress := objSet st.uploadProgress f.name 100 }
    have ih2 := ih (applyEffect { st with uploadProgress := objSet st.uploadProgress f.name 100 })
      (fun g hg => hok g (List.mem_cons_of_mem f hg))
    refine ⟨?_, ?_, ?_, ?_⟩ <;>
      simp [ih2.1, ih2.2.1, ih2.2.2.1, ih2.2.2.2, hfr.1, hfr.2.1, hfr.2.2.1, hfr.2.2.2]

theorem objSet_not_mem (m : List (String × Nat)) (k : String) (v : Nat)
    (h : k ∉ m.map Prod.fst) : objSet m k v = m ++ [(k, v)] := by
  simp [objSet, h]

theorem foldl_objSet_append :
    ∀ (fs : List SelectedFile) (m : List (String × Nat)),
      (fs.map SelectedFile.name).Nodup →
      (∀ f ∈ fs, f.name ∉ m.map Prod.fst) →
      fs.foldl (fun m f => objSet m f.name 100) m = m ++ fs.map (fun f => (f.name, 100)) := by
  intro fs
  induction fs with
  | nil => intro m _ _; simp
  | cons f fs ih =>
    intro m hnd hdisj
    have h1 : objSet m f.name 100 = m ++ [(f.name, 100)] :=
      objSet_not_mem m f.name 100 (hdisj f (List.mem_cons_self f fs))
    have hnd2 : (fs.map SelectedFile.name).Nodup := (List.nodup_cons.mp hnd).2
    have hfn : f.name ∉ fs.map SelectedFile.name := (List.nodup_cons.mp hnd).1
    have hdisj2 : ∀ g ∈ fs, g.name ∉ (m ++ [(f.name, 100)]).map Prod.fst := by
      intro g hg
      simp only [List.map_append, List.mem_append]
      rintro (hin | hin)
      · exact hdisj g (List.mem_cons_of_mem f hg) hin
      · simp only [List.map_cons, List.map_nil, List.mem_singleton] at hin
        exact hfn (hin ▸ List.mem_map_of_mem SelectedFile.name hg)
    calc (f :: fs).foldl (fun m f => objSet m f.name 100) m
        = fs.foldl (fun m f => objSet m f.name 100) (m ++ [(f.name, 100)]) := by
          simp [h1]
      _ = (m ++ [(f.name, 100)]) ++ fs.map (fun f => (f.name, 100)) := ih _ hnd2 hdisj2
      _ = m ++ (f :: fs).map (fun f => (f.name, 100)) := by simp

theorem completedCount_map100 (fs : List SelectedFile) :
    completedCount (fs.map (fun f => (f.name, 100))) = fs.length := by
  unfold completedCount
  rw [List.map_map]
  have h1 : (fs.map (Prod.snd ∘ fun f => (f.name, (100 : Nat)))) = fs.map (fun _ => 100) := by
    apply List.map_congr_left
    intro a _
    rfl
  rw [h1]
  have h2 : (fs.map (fun _ => (100 : Nat))).filter (fun v => decide (v = 100))
      = fs.map (fun _ => 100) := by
    apply List.filter_eq_self.mpr
    intro a ha
    rcases List.mem_map.mp ha with ⟨b, _, hb⟩
    simp [← hb]
  rw [h2, List.length_map]

theorem handleUploadSync_ok (cfg : String → Option String) (s : AppState)
    (tok fid : String) (hne : s.files ≠ []) (ht : s.accessToken = some tok)
    (hc : cfg s.category = some fid) :
    handleUploadSync cfg s =
      { state :=
          { s with
            isUploading := true
            error := none
            gapiToken := some tok
            currentFileIndex := s.files.length - 1 }
        scheduled := s.files
        requests := s.files.map (uploadRequest fid) } := by
  have h0 : ¬ s.files.length = 0 := by
    simpa [List.length_eq_zero] using hne
  simp [handleUploadSync, h0, ht, hc]

/-- Claim C3 counterexample: a two-file batch, valid credential, configured
destination, every upload succeeding: afterwards both files carry a 100
progress entry and isUploading is cleared, yet accessToken is still present —
the Session credential is not cleared, and no re-authentication would be
needed (the completion effect only nulls the gapi client token). -/
theorem c3_counterexample :
    (runStartUpload sampleCfg okResults (signedInState [fileA, fileB])).uploadProgress
      = [("a.jpg", 100), ("b.jpg", 100)] ∧
    (runStartUpload sampleCfg okResults (signedInState [fileA, fileB])).isUploading = false ∧
    (runStartUpload sampleCfg okResults (signedInState [fileA, fileB])).gapiToken = none ∧
    (runStartUpload sampleCfg okResults (signedInState [fileA, fileB])).accessToken
      = some "tok" ∧
    isSignedIn (runStartUpload sampleCfg okResults (signedInState [fileA, fileB])) = true := by
  refine ⟨?_, ?_, ?_, ?_, ?_⟩ <;> decide

/-- Claim C3 (amended): for every non-empty batch with pairwise distinct file
names started from a fresh selection with a valid credential and a configured
destination, if every upload succeeds then totalProgress reaches exactly 100,
the run state is allDone, the gapi client token is cleared — but the Session
credential (accessToken) is retained, so the user stays signed in and no
re-authentication is required for a subsequent batch. -/
theorem c3_full_success (cfg : String → Option String)
    (results : SelectedFile → Option String) (s : AppState) (tok fid : String)
    (hne : s.files ≠ [])
    (hnodup : (s.files.map SelectedFile.name).Nodup)
    (hprog : s.uploadProgress = [])
    (ht : s.accessToken = some tok)
    (hcfg : cfg s.category = some fid)
    (hok : ∀ f ∈ s.files, results f = none) :
    (runStartUpload cfg results s).totalProgress = 100 ∧
    runState (runStartUpload cfg results s) = RunState.allDone ∧
    (runStartUpload cfg results s).isUploading = false ∧
    (runStartUpload cfg results s).gapiToken = none ∧
    (runStartUpload cfg results s).accessToken = some tok ∧
    isSignedIn (runStartUpload cfg results s) = true := by
  rcases List.eq_nil_or_concat s.files with hfs | ⟨gs, g, hfs⟩
  · exact absurd hfs hne
  have hfs2 : s.files = gs ++ [g] := by simpa using hfs
  have hsync := handleUploadSync_ok cfg s tok fid hne ht hcfg
  set st0 : AppState :=
    { s with
      isUploading := true
      error := none
      gapiToken := some tok
      currentFileIndex := s.files.length - 1 } with hst0
  have hrun : runStartUpload cfg results s = runUploadCallbacks results s.files st0 := by
    rw [runStartUpload, hsync]
  have hokg : results g = none := by
    apply hok
    rw [hfs2]
    simp
  have hokgs : ∀ f ∈ gs, results f = none := by
    intro f hf
    apply hok
    rw [hfs2]
    simp [hf]
  have hfold : runUploadCallbacks results s.files st0
      = runFileCallback results (runUploadCallbacks results gs st0) g := by
    rw [hfs2]
    simp [runUploadCallbacks]
  set pen : AppState := runUploadCallbacks results gs st0 with hpen
  have hgsnodup : (gs.map SelectedFile.name).Nodup := by
    have h1 : ((gs ++ [g]).map SelectedFile.name).Nodup := hfs2 ▸ hnodup
    rw [List.map_append] at h1
    exact (List.nodup_append.mp h1).1
  have hgnotin : g.name ∉ gs.map SelectedFile.name := by
    have h1 : ((gs ++ [g]).map SelectedFile.name).Nodup := hfs2 ▸ hnodup
    rw [List.map_append] at h1
    have h2 := (List.nodup_append.mp h1).2.2
    intro hmem
    exact h2 hmem (by simp)
  have hpenfacts := runUploadCallbacks_ok results gs st0 hokgs
  have hpenprog : pen.uploadProgress = gs.map (fun f => (f.name, 100)) := by
    rw [hpen, hpenfacts.1]
    have h0 : st0.uploadProgress = [] := hprog
    rw [h0]
    rw [foldl_objSet_append gs [] hgsnodup (by intro f _; simp)]
    simp
  have hpenfiles : pen.files = s.files := hpenfacts.2.1
  have hpentok : pen.accessToken = some tok := by
    rw [hpen, hpenfacts.2.2.1]
    exact ht
  have hkeys : gs.map SelectedFile.name = (gs.map (fun f => (f.name, (100:Nat)))).map Prod.fst := by
    rw [List.map_map]
    rfl
  have hobj : objSet pen.uploadProgress g.name 100
      = (gs ++ [g]).map (fun f => (f.name, 100)) := by
    rw [hpenprog, objSet_not_mem _ _ _ (by rw [← hkeys]; exact hgnotin)]
    simp
  set spen : AppState := { pen with uploadProgress := objSet pen.uploadProgress g.name 100 }
    with hspen
  have hlast : runFileCallback results pen g = applyEffect spen := by
    simp [runFileCallback, hokg, hspen]
  have hspenfiles : spen.files = s.files := by rw [hspen]; exact hpenfiles
  have hn0 : spen.files.length ≠ 0 := by
    rw [hspenfiles]
    simp [hfs2]
  have hccount : completedCount spen.uploadProgress = spen.files.length := by
    have h1 : spen.uploadProgress = (gs ++ [g]).map (fun f => (f.name, 100)) := hobj
    rw [h1, completedCount_map100, hspenfiles, hfs2]
  have hdone := applyEffect_complete spen hn0 hccount
  have hfr := applyEffect_frame spen
  have hfin : runStartUpload cfg results s = applyEffect spen := by
    rw [hrun, hfold, hlast]
  refine ⟨?_, ?_, ?_, ?_, ?_, ?_⟩
  · rw [hfin]; exact hdone.1
  · rw [hfin]
    have h1 : (applyEffect spen).isUploading = false := hdone.2.1
    have h2 : allFilesUploaded (applyEffect spen) = true := by
      have h3 : (applyEffect spen).files = s.files := by rw [hfr.2.1]; exact hspenfiles
      simp [allFilesUploaded, h3, hdone.1, hfs2]
    simp [runState, h1, h2]
  · rw [hfin]; exact hdone.2.1
  · rw [hfin]; exact hdone.2.2
  · rw [hfin, hfr.2.2.1, hspen]
    exact hpentok
  · rw [isSignedIn, hfin, hfr.2.2.1, hspen]
    simp [hpentok]

/-- Claim C3 witness: the amended full-success postcondition at the concrete
two-file batch with the sample configuration. -/
theorem c3_witness :
    (runStartUpload sampleCfg okResults (signedInState [fileA, fileB])).totalProgress = 100 ∧
    runState (runStartUpload sampleCfg okResults (signedInState [fileA, fileB]))
      = RunState.allDone ∧
    (runStartUpload sampleCfg okResults (signedInState [fileA, fileB])).isUploading = false ∧
    (runStartUpload sampleCfg okResults (signedInState [fileA, fileB])).gapiToken = none ∧
    (runStartUpload sampleCfg okResults (signedInState [fileA, fileB])).accessToken
      = some "tok" ∧
    isSignedIn (runStartUpload sampleCfg okResults (signedInState [fileA, fileB])) = true :=
  c3_full_success sampleCfg okResults (signedInState [fileA, fileB]) "tok" "nikkah-folder-id"
    (by decide) (by decide) rfl rfl (by decide) (fun f _ => rfl)

theorem completedCount_le (m : List (String × Nat)) : completedCount m ≤ m.length := by
  unfold completedCount
  calc ((m.map Prod.snd).filter (fun v => decide (v = 100))).length
      ≤ (m.map Prod.snd).length := List.length_filter_le _ _
    _ = m.length := List.length_map _ _

theorem dedup_length_lt (l : List String) (h : ¬ l.Nodup) : l.dedup.length < l.length := by
  rcases Nat.lt_or_ge l.dedup.length l.length with h1 | h1
  · exact h1
  · exfalso
    have hs : List.Sublist l.dedup l := l.dedup_sublist
    have h2 : l.dedup = l := hs.eq_of_length (le_antisymm hs.length_le h1)
    exact h (h2 ▸ l.nodup_dedup)

theorem completedCount_lt_of_dup (fsAll : List SelectedFile) (m : List (String × Nat))
    (hdup : ¬ (fsAll.map SelectedFile.name).Nodup)
    (hnd : (m.map Prod.fst).Nodup)
    (hsub : ∀ x ∈ m.map Prod.fst, x ∈ fsAll.map SelectedFile.name) :
    completedCount m < fsAll.length := by
  have h1 := completedCount_le m
  have h2 : m.length = (m.map Prod.fst).length := (List.length_map _ _).symm
  have h3 : (m.map Prod.fst).length ≤ (fsAll.map SelectedFile.name).dedup.length :=
    (hnd.subperm (fun x hx => List.mem_dedup.mpr (hsub x hx))).length_le
  have h4 : (fsAll.map SelectedFile.name).dedup.length < (fsAll.map SelectedFile.name).length :=
    dedup_length_lt _ hdup
  have h5 : (fsAll.map SelectedFile.name).length = fsAll.length := List.length_map _ _
  omega

theorem objSet_keys (m : List (String × Nat)) (k : String) (v : Nat) :
    (k ∈ m.map Prod.fst ∧ (objSet m k v).map Prod.fst = m.map Prod.fst) ∨
    (k ∉ m.map Prod.fst ∧ (objSet m k v).map Prod.fst = m.map Prod.fst ++ [k]) := by
  unfold objSet
  by_cases h : k ∈ m.map Prod.fst
  · left
    refine ⟨h, ?_⟩
    rw [if_pos h, List.map_map]
    apply List.map_congr_left
    intro a _
    by_cases h2 : a.1 = k <;> simp [h2]
  · right
    refine ⟨h, ?_⟩
    rw [if_neg h]
    simp

theorem frac_mul_lt (c n : Nat) (hc : c < n) : ((c : ℚ) / n) * 100 < 100 := by
  have hn : (0:ℚ) < n := by exact_mod_cast Nat.lt_of_le_of_lt (Nat.zero_le c) hc
  have h1 : (c : ℚ) / n < 1 := by
    rw [div_lt_one hn]
    exact_mod_cast hc
  nlinarith

theorem c10_run_inv (results : SelectedFile → Option String) (fsAll : List SelectedFile)
    (hdup : ¬ (fsAll.map SelectedFile.name).Nodup) :
    ∀ (gs : List SelectedFile) (st : AppState),
      (∀ f ∈ gs, results f = none) → (∀ f ∈ gs, f ∈ fsAll) →
      st.files = fsAll →
      (st.uploadProgress.map Prod.fst).Nodup →
      (∀ x ∈ st.uploadProgress.map Prod.fst, x ∈ fsAll.map SelectedFile.name) →
      st.totalProgress < 100 →
      (runUploadCallbacks results gs st).files = fsAll ∧
      ((runUploadCallbacks results gs st).uploadProgress.map Prod.fst).Nodup ∧
      (∀ x ∈ (runUploadCallbacks results gs st).uploadProgress.map Prod.fst,
        x ∈ fsAll.map SelectedFile.name) ∧
      (runUploadCallbacks results gs st).totalProgress < 100 := by
  have hfsne : fsAll.length ≠ 0 := by
    intro h0
    apply hdup
    have h1 : fsAll = [] := List.length_eq_zero.mp h0
    simp [h1]
  intro gs
  induction gs with
  | nil => intro st _ _ hfiles hnd hsub htp; exact ⟨hfiles, hnd, hsub, htp⟩
  | cons f gs ih =>
    intro st hok hmem hfiles hnd hsub htp
    have hf : results f = none := hok f (List.mem_cons_self f gs)
    set st1 : AppState := { st with uploadProgress := objSet st.uploadProgress f.name 100 }
      with hst1
    have hstep : runUploadCallbacks results (f :: gs) st
        = runUploadCallbacks results gs (applyEffect st1) := by
      simp [runUploadCallbacks, runFileCallback, hf, hst1]
    rw [hstep]
    have hfr := applyEffect_frame st1
    have hfiles1 : (applyEffect st1).files = fsAll := by
      rw [hfr.2.1, hst1]
      exact hfiles
    have hprog1 : (applyEffect st1).uploadProgress = objSet st.uploadProgress f.name 100 := by
      rw [hfr.1, hst1]
    have hkeyfacts : ((applyEffect st1).uploadProgress.map Prod.fst).Nodup ∧
        (∀ x ∈ (applyEffect st1).uploadProgress.map Prod.fst,
          x ∈ fsAll.map SelectedFile.name) := by
      rw [hprog1]
      rcases objSet_keys st.uploadProgress f.name 100 with ⟨_, heq⟩ | ⟨hnin, heq⟩
      · rw [heq]
        exact ⟨hnd, hsub⟩
      · rw [heq]
        constructor
        · simp [List.nodup_append, hnd, hnin]
        · intro x hx
          rcases List.mem_append.mp hx with hx | hx
          · exact hsub x hx
          · simp only [List.mem_singleton] at hx
            subst hx
            exact List.mem_map_of_mem SelectedFile.name (hmem f (List.mem_cons_self f gs))
    have hn0 : st1.files.length ≠ 0 := by
      have h1 : st1.files = fsAll := by rw [hst1]; exact hfiles
      rw [h1]
      exact hfsne
    have hcc : completedCount st1.uploadProgress < fsAll.length := by
      apply completedCount_lt_of_dup fsAll _ hdup
      · have h1 : st1.uploadProgress = (applyEffect st1).uploadProgress := (hfr.1).symm
        rw [h1]
        exact hkeyfacts.1
      · have h1 : st1.uploadProgress = (applyEffect st1).uploadProgress := (hfr.1).symm
        rw [h1]
        exact hkeyfacts.2
    have htp1 : (applyEffect st1).totalProgress < 100 := by
      rw [applyEffect_totalProgress st1 hn0]
      have h1 : st1.files.length = fsAll.length := by rw [hst1]; simp [hfiles]
      rw [h1]
      exact frac_mul_lt _ _ hcc
    exact ih (applyEffect st1) (fun g hg => hok g (List.mem_cons_of_mem f hg))
      (fun g hg => hmem g (List.mem_cons_of_mem f hg)) hfiles1 hkeyfacts.1 hkeyfacts.2 htp1

/-- Claim C10: in a batch containing two distinct files with the same name,
the progress map is keyed by file name so it holds at most one entry per name
(its keys stay duplicate-free), and at every point of the run — after any
number of completed callbacks, all successful — the completed count stays
below the batch size, totalProgress stays below 100, allFilesUploaded stays
false and the run state never becomes allDone. -/
theorem c10_duplicate_names (cfg : String → Option String)
    (results : SelectedFile → Option String) (s : AppState) (k : Nat) (tok fid : String)
    (hdup : ¬ (s.files.map SelectedFile.name).Nodup)
    (hprog : s.uploadProgress = [])
    (htp : s.totalProgress = 0)
    (ht : s.accessToken = some tok)
    (hcfg : cfg s.category = some fid)
    (hok : ∀ f ∈ s.files, results f = none) :
    ((runUploadCallbacks results (s.files.take k)
        (handleUploadSync cfg s).state).uploadProgress.map Prod.fst).Nodup ∧
    completedCount (runUploadCallbacks results (s.files.take k)
        (handleUploadSync cfg s).state).uploadProgress < s.files.length ∧
    (runUploadCallbacks results (s.files.take k)
        (handleUploadSync cfg s).state).totalProgress < 100 ∧
    allFilesUploaded (runUploadCallbacks results (s.files.take k)
        (handleUploadSync cfg s).state) = false ∧
    runState (runUploadCallbacks results (s.files.take k)
        (handleUploadSync cfg s).state) ≠ RunState.allDone := by
  have hne : s.files ≠ [] := by
    intro h0
    apply hdup
    simp [h0]
  have hsync := handleUploadSync_ok cfg s tok fid hne ht hcfg
  set st0 : AppState :=
    { s with
      isUploading := true
      error := none
      gapiToken := some tok
      currentFileIndex := s.files.length - 1 } with hst0
  have hstate : (handleUploadSync cfg s).state = st0 := by rw [hsync]
  rw [hstate]
  have hinv := c10_run_inv results s.files hdup (s.files.take k) st0
    (fun f hf => hok f (List.take_subset k s.files hf))
    (fun f hf => List.take_subset k s.files hf)
    (by rw [hst0])
    (by rw [hst0]; simp [hprog])
    (by rw [hst0]; simp [hprog])
    (by rw [hst0]; simp [htp])
  have hcc : completedCount (runUploadCallbacks results (s.files.take k) st0).uploadProgress
      < s.files.length :=
    completedCount_lt_of_dup s.files _ hdup hinv.2.1 hinv.2.2.1
  have htp' := hinv.2.2.2
  have hall : allFilesUploaded (runUploadCallbacks results (s.files.take k) st0) = false := by
    have h2 : ¬ ((100:ℚ) ≤ (runUploadCallbacks results (s.files.take k) st0).totalProgress) :=
      not_le.mpr htp'
    simp [allFilesUploaded, h2]
  refine ⟨hinv.2.1, hcc, htp', hall, ?_⟩
  by_cases hu : (runUploadCallbacks results (s.files.take k) st0).isUploading = true <;>
    simp [runState, hu, hall]

/-- Claim C10 witness: the duplicate-name batch [a.jpg, a.jpg] run to
completion (k = 2) with every upload succeeding under the sample
configuration. -/
theorem c10_witness :
    ((runUploadCallbacks okResults ((signedInState [fileA, fileA2]).files.take 2)
        (handleUploadSync sampleCfg (signedInState [fileA, fileA2])).state).uploadProgress.map
          Prod.fst).Nodup ∧
    completedCount (runUploadCallbacks okResults ((signedInState [fileA, fileA2]).files.take 2)
        (handleUploadSync sampleCfg (signedInState [fileA, fileA2])).state).uploadProgress
      < (signedInState [fileA, fileA2]).files.length ∧
    (runUploadCallbacks okResults ((signedInState [fileA, fileA2]).files.take 2)
        (handleUploadSync sampleCfg (signedInState [fileA, fileA2])).state).totalProgress < 100 ∧
    allFilesUploaded (runUploadCallbacks okResults ((signedInState [fileA, fileA2]).files.take 2)
        (handleUploadSync sampleCfg (signedInState [fileA, fileA2])).state) = false ∧
    runState (runUploadCallbacks okResults ((signedInState [fileA, fileA2]).files.take 2)
        (handleUploadSync sampleCfg (signedInState [fileA, fileA2])).state)
      ≠ RunState.allDone :=
  c10_duplicate_names sampleCfg okResults (signedInState [fileA, fileA2]) 2 "tok"
    "nikkah-folder-id" (by decide) rfl rfl rfl (by decide) (fun f _ => rfl)

end AlbumUpload
